import Mathlib

/-!
Verification development for the nanobot-go serving node.

This file gives a shallow embedding, in Lean 4, of the parts of the Go source
that the checked properties concern: the session lane manager
(internal/lane/lane.go), the agent tool-calling loop (internal/agent/loop.go
with internal/agent/context.go helpers), the cluster HTTP chat handler and
load endpoint (the cluster server file), the config hub
(internal/confighub), the agent registry (internal/registry/registry.go) and
the routing layer (the cluster routing file and internal/router).

Go machine integers that the embedded code manipulates are modelled as Nat
or Int; none of the embedded operations can overflow in the scenarios the
theorems cover (counters and lengths only grow by small increments).
Time.Time values are modelled as Nat milliseconds.  Go maps are modelled as
association lists in insertion order; where Go map iteration order is
relevant (keyword table, mention map) the embedding fixes the source's
textual order and the theorems avoid depending on tie-breaking.
-/

/-! ## Session lane manager: internal/lane/lane.go -/

/-- Lane processing mode, mirroring `type Mode string`.  The three constants
are the strings "followup", "collect" and "interrupt"; the empty string makes
`Submit` fall back to the manager-wide default. -/
abbrev LaneMode := String

/-- ModeFollowup mirrors the Go constant. -/
def ModeFollowup : LaneMode := "followup"

/-- ModeCollect mirrors the Go constant. -/
def ModeCollect : LaneMode := "collect"

/-- ModeInterrupt mirrors the Go constant. -/
def ModeInterrupt : LaneMode := "interrupt"

/-- ChatRequest mirrors `lane.ChatRequest` (Timestamp and Metadata omitted:
the embedded operations never read them). -/
structure ChatRequest where
  content : String
  sessionKey : String
  channel : String := ""
  chatId : String := ""
  personId : String := ""
  roleId : String := ""
  deriving Repr, DecidableEq

/-- ChatResult mirrors `lane.ChatResult` (RouteInfo omitted: never read by
the embedded operations). -/
structure ChatResult where
  content : String
  agentId : String
  error : String
  requestsMerged : Nat
  deriving Repr, DecidableEq

/-- Outcome of one `processCollect` run.  `handlerCalls` is ghost
instrumentation recording every invocation of the handler in order;
`returned` is the result the worker hands back to the initiating request,
and `deliveredToExtras` records the value sent on each drained request's
done channel, in drain order. -/
structure CollectOutcome where
  handlerCalls : List ChatRequest
  returned : ChatResult
  deliveredToExtras : List ChatResult
  deriving Repr, DecidableEq

/-- processCollect mirrors `Manager.processCollect`: the initiating item plus
the requests drained from the lane queue during the collect window (given
here as `extras`, in arrival order) are merged into one request whose
content joins the individual contents with "\n"; the handler runs once on
the merged request; RequestsMerged is overwritten with the number of merged
messages, and the same result is sent to every drained request and returned
for the initiating one. -/
def processCollect (handler : ChatRequest → ChatResult)
    (item : ChatRequest) (extras : List ChatRequest) : CollectOutcome :=
  let merged := item.content :: extras.map ChatRequest.content
  let mergedReq := { item with content := String.intercalate "\n" merged }
  let result0 := handler mergedReq
  let result := { result0 with requestsMerged := merged.length }
  { handlerCalls := [mergedReq]
    returned := result
    deliveredToExtras := extras.map (fun _ => result) }

/-- Milliseconds, modelling time.Time / time.Duration values. -/
abbrev Millis := Nat

/-- Ten minutes in milliseconds, the idle threshold of
`Manager.cleanupIdleLanes`. -/
def tenMinutesMs : Millis := 600000

/-- LaneState carries the per-lane fields that `getOrCreateLane`,
`cleanupIdleLanes` and `runWorker`'s mode switch read: the lane's mode, its
idle flag and its lastActive timestamp. -/
structure LaneState where
  mode : LaneMode
  idle : Bool
  lastActive : Millis
  deriving Repr, DecidableEq

/-- ManagerState carries the manager fields the embedded operations touch:
the lane map (as an association list in insertion order) and maxLanes. -/
structure ManagerState where
  lanes : List (String × LaneState)
  maxLanes : Nat
  deriving Repr, DecidableEq

/-- cleanupIdleLanes mirrors `Manager.cleanupIdleLanes`: delete every lane
that is idle and whose lastActive is before now minus ten minutes.  Go
computes `threshold := now.Add(-10m)` and tests `lastActive.Before(threshold)`;
over absolute timestamps that test is `lastActive + 10m < now`, which is the
form used here (it also agrees with Go when `now` is within ten minutes of
the epoch, where both sides make the test false). -/
def cleanupIdleLanes (now : Millis) (lanes : List (String × LaneState)) :
    List (String × LaneState) :=
  lanes.filter (fun p => !(p.snd.idle && decide (p.snd.lastActive + tenMinutesMs < now)))

/-- Result of `getOrCreateLane`: the updated manager state and the mode
stored on the lane that was returned — the mode `runWorker` will switch on
for items queued to that lane. -/
structure GetOrCreateOutcome where
  state : ManagerState
  laneMode : LaneMode
  deriving Repr, DecidableEq

/-- getOrCreateLane mirrors `Manager.getOrCreateLane`: return the existing
lane if the key is present; otherwise, when the map has reached maxLanes,
run cleanupIdleLanes, then insert a fresh lane (idle = false, lastActive =
now) carrying the requested mode.  Note the new lane is inserted whether or
not the cleanup freed any slot. -/
def getOrCreateLane (m : ManagerState) (now : Millis) (key : String)
    (mode : LaneMode) : GetOrCreateOutcome :=
  match m.lanes.lookup key with
  | some l => ⟨m, l.mode⟩
  | none =>
    let lanes := if m.lanes.length ≥ m.maxLanes then cleanupIdleLanes now m.lanes else m.lanes
    let newLane : LaneState := { mode := mode, idle := false, lastActive := now }
    ⟨{ m with lanes := lanes ++ [(key, newLane)] }, mode⟩

/-- submitEffectiveMode composes the mode-selection path of `Manager.Submit`
(empty mode falls back to the manager default) with `getOrCreateLane` and
returns the mode of the lane the request is queued to — the mode
`runWorker`'s switch statement actually applies to the request. -/
def submitEffectiveMode (m : ManagerState) (defaultMode : LaneMode)
    (now : Millis) (key : String) (mode : LaneMode) : LaneMode :=
  let mode := if mode = "" then defaultMode else mode
  (getOrCreateLane m now key mode).laneMode

/-! ## Agent tool-calling loop: internal/agent/loop.go and context.go -/

/-- ToolCallRequest mirrors `providers.ToolCallRequest`.  The Go Arguments
field is a map[string]any that the loop only marshals and forwards; it is
modelled as an opaque string. -/
structure ToolCallRequest where
  id : String
  name : String
  arguments : String
  deriving Repr, DecidableEq

/-- LLMResponse mirrors `providers.LLMResponse` (FinishReason and Usage
omitted: the loop never reads them). -/
structure LLMResponse where
  content : Option String
  toolCalls : List ToolCallRequest := []
  reasoningContent : Option String := none
  deriving Repr, DecidableEq

/-- hasToolCalls mirrors `LLMResponse.HasToolCalls`: len(r.ToolCalls) > 0. -/
def LLMResponse.hasToolCalls (r : LLMResponse) : Bool :=
  r.toolCalls.length > 0

/-- ToolCallDict models the map built for the assistant message's
"tool_calls" array: {id, type:"function", function:{name, arguments}}. -/
structure ToolCallDict where
  id : String
  name : String
  argumentsJson : String
  deriving Repr, DecidableEq

/-- Msg models the map[string]any chat messages of the loop.  Only the keys
the loop reads or writes are represented; toolCalls nonempty and
reasoningContent nonempty model the presence of the optional
"tool_calls" / "reasoning_content" keys. -/
structure Msg where
  role : String
  content : String
  toolCalls : List ToolCallDict := []
  reasoningContent : String := ""
  toolCallId : String := ""
  name : String := ""
  deriving Repr, DecidableEq

/-- PMessage mirrors `providers.Message`: the role/content pair extracted
from each map message before calling the provider. -/
structure PMessage where
  role : String
  content : String
  deriving Repr, DecidableEq

/-- toProviderMsgs mirrors the conversion loop at the top of RunAgentLoop:
keep role and content only. -/
def toProviderMsgs (messages : List Msg) : List PMessage :=
  messages.map (fun m => ⟨m.role, m.content⟩)

/-- addToolResult mirrors `ContextBuilder.AddToolResult`: append
{role:"tool", tool_call_id, name, content}. -/
def addToolResult (messages : List Msg) (toolCallID toolName result : String) :
    List Msg :=
  messages ++ [{ role := "tool", content := result,
                 toolCallId := toolCallID, name := toolName }]

/-- addAssistantMessage mirrors `ContextBuilder.AddAssistantMessage`: append
{role:"assistant", content} plus tool_calls when nonempty and
reasoning_content when nonempty. -/
def addAssistantMessage (messages : List Msg) (content : String)
    (toolCalls : List ToolCallDict) (reasoningContent : String) : List Msg :=
  messages ++ [{ role := "assistant", content := content,
                 toolCalls := toolCalls, reasoningContent := reasoningContent }]

/-- A tool registry, modelling `a.Tools.Get`: name lookup yields the tool's
Execute function or nothing for an unknown name.  Execute's (string, error)
pair is an Except. -/
abbrev ToolRegistry := String → Option (String → Except String String)

/-- execToolCall mirrors the per-call body inside RunAgentLoop: run the tool
when registered, turning an execution error err into
"Error: " ++ err (Go: fmt.Sprintf("Error: %v", err)); unknown names give
"Error: unknown tool \"name\"" (Go: %q — the quoting of names without
escapes). -/
def execToolCall (tools : ToolRegistry) (tc : ToolCallRequest) : String :=
  match tools tc.name with
  | some exec =>
    match exec tc.arguments with
    | Except.ok r => r
    | Except.error e => "Error: " ++ e
  | none => "Error: unknown tool \"" ++ tc.name ++ "\""

/-- ToolExec is ghost instrumentation: one executed tool call together with
the string appended as its tool message content. -/
structure ToolExec where
  call : ToolCallRequest
  result : String
  deriving Repr, DecidableEq

/-- execToolCalls mirrors the `for _, tc := range resp.ToolCalls` loop:
record the name in toolsUsed, execute, and append the tool message; the
ghost log records each execution. -/
def execToolCalls (tools : ToolRegistry) :
    List ToolCallRequest → List Msg → List String → List ToolExec →
    List Msg × List String × List ToolExec
  | [], messages, toolsUsed, log => (messages, toolsUsed, log)
  | tc :: rest, messages, toolsUsed, log =>
    let result := execToolCall tools tc
    execToolCalls tools rest (addToolResult messages tc.id tc.name result)
      (toolsUsed ++ [tc.name]) (log ++ [⟨tc, result⟩])

/-- LoopResult carries RunAgentLoop's (content, toolsUsed, error) triple plus
ghost observations: the number of provider calls made, the final message
list, and the tool execution log. -/
structure LoopResult where
  content : String
  toolsUsed : List String
  error : Option String
  providerCalls : Nat
  messages : List Msg
  toolLog : List ToolExec
  deriving Repr

/-- A provider, modelling `a.Provider.Chat` as a function of the converted
messages (model, maxTokens, temperature and tool schemas are fixed per loop
and do not vary between iterations, so they are left implicit). -/
abbrev ChatFn := List PMessage → Except String LLMResponse

/-- runAgentLoopAux mirrors the `for iteration < a.MaxIterations` loop of
RunAgentLoop with the remaining iteration budget as fuel: call the provider;
on error return ("", toolsUsed, wrapped error); with tool calls append the
assistant message, execute every call, and continue; without tool calls
return the response content.  Exhausted fuel returns the sentinel. -/
def runAgentLoopAux (chat : ChatFn) (tools : ToolRegistry) :
    Nat → List Msg → List String → Nat → List ToolExec → LoopResult
  | 0, messages, toolsUsed, calls, log =>
    ⟨"Max iterations reached", toolsUsed, none, calls, messages, log⟩
  | fuel + 1, messages, toolsUsed, calls, log =>
    match chat (toProviderMsgs messages) with
    | Except.error e =>
      ⟨"", toolsUsed, some ("LLM chat: " ++ e), calls + 1, messages, log⟩
    | Except.ok resp =>
      if resp.hasToolCalls then
        let dicts := resp.toolCalls.map (fun tc =>
          ToolCallDict.mk tc.id tc.name tc.arguments)
        let msgs1 := addAssistantMessage messages (resp.content.getD "") dicts
          (resp.reasoningContent.getD "")
        let s := execToolCalls tools resp.toolCalls msgs1 toolsUsed log
        runAgentLoopAux chat tools fuel s.1 s.2.1 (calls + 1) s.2.2
      else
        ⟨resp.content.getD "", toolsUsed, none, calls + 1, messages, log⟩

/-- runAgentLoop mirrors `AgentLoop.RunAgentLoop` with MaxIterations as the
fuel (a non-positive Go MaxIterations never enters the loop body, exactly
like fuel 0). -/
def runAgentLoop (chat : ChatFn) (tools : ToolRegistry) (maxIterations : Nat)
    (messages : List Msg) : LoopResult :=
  runAgentLoopAux chat tools maxIterations messages [] 0 []

/-! ## Cluster HTTP server: handleChat, laneHandler and handleLoad -/

/-- ChatBody mirrors the server's chatRequest JSON body struct. -/
structure ChatBody where
  content : String
  sessionKey : String := ""
  channel : String := ""
  chatId : String := ""
  personId : String := ""
  roleId : String := ""
  mode : String := ""
  deriving Repr, DecidableEq

/-- Outcome of `laneManager.Submit` as seen by handleChat: either a
ChatResult, or the error Submit returns (only context cancellation in the
source). -/
inductive SubmitOutcome where
  | ok (result : ChatResult)
  | err (msg : String)
  deriving Repr, DecidableEq

/-- The JSON body the handler writes: either {"error": msg} or the
four-field success object. -/
inductive HttpBody where
  | errorBody (msg : String)
  | chatBody (content agentId : String) (requestsMerged : Nat) (latencyMs : Nat)
  deriving Repr, DecidableEq

/-- An HTTP status code plus the written body. -/
structure HttpResponse where
  status : Nat
  body : HttpBody
  deriving Repr, DecidableEq

/-- builtLaneRequest mirrors the lane.ChatRequest literal built inside
`Server.handleChat`, including the sessionKey default
"channel:chatId" applied when the body carries none. -/
def builtLaneRequest (req : ChatBody) : ChatRequest :=
  { content := req.content
    sessionKey :=
      if req.sessionKey = "" then req.channel ++ ":" ++ req.chatId
      else req.sessionKey
    channel := req.channel
    chatId := req.chatId
    personId := req.personId
    roleId := req.roleId }

/-- handleChat mirrors `Server.handleChat`.  `decoded` is the result of the
JSON decode of the request body (none = decode error); `submit` stands for
`s.laneManager.Submit` applied to the built lane.ChatRequest and the
requested mode; `latencyMs` is the measured wall time, opaque here.  Note
the success path reads result.Content/AgentID/RequestsMerged only — the
result's Error string is never consulted. -/
def handleChat (method : String) (decoded : Option ChatBody)
    (submit : ChatRequest → LaneMode → SubmitOutcome) (latencyMs : Nat) :
    HttpResponse :=
  if method ≠ "POST" then ⟨405, HttpBody.errorBody "method not allowed"⟩
  else
    match decoded with
    | none => ⟨400, HttpBody.errorBody "invalid JSON"⟩
    | some req =>
      if req.content = "" then ⟨400, HttpBody.errorBody "content is required"⟩
      else
        match submit (builtLaneRequest req) req.mode with
        | SubmitOutcome.err e => ⟨500, HttpBody.errorBody e⟩
        | SubmitOutcome.ok result =>
          ⟨200, HttpBody.chatBody result.content result.agentId
            result.requestsMerged latencyMs⟩

/-- handleLoadAvg mirrors the avgLatencyMs computation of
`Server.handleLoad`: totalLatencyMs / totalRequests over the whole process
lifetime when any request completed, else 0 (both counters are atomic
lifetime accumulators in the source). -/
def handleLoadAvg (totalLatencyMs totalRequests : Nat) : Nat :=
  if totalRequests > 0 then totalLatencyMs / totalRequests else 0

/-- One recorded latency sample, mirroring `latencyEntry` of
internal/cluster/latency.go. -/
structure LatencyEntry where
  ts : Millis
  latency : Nat
  deriving Repr, DecidableEq

/-- serverTotals mirrors the deferred accounting of handleChat: every
completed request adds its latency to totalLatencyMs and 1 to
totalRequests.  Given the full request trace it yields
(totalLatencyMs, totalRequests). -/
def serverTotals (entries : List LatencyEntry) : Nat × Nat :=
  ((entries.map LatencyEntry.latency).sum, entries.length)

/-- latencyWindowAvg mirrors `latencyWindow.Avg` of
internal/cluster/latency.go: drop entries recorded before now minus the
window from the front (entries are appended in time order), then average
the remaining latencies; (0, 0) when none remain.  The cutoff test
`ts.Before(now - window)` is written `ts + window < now` as for
cleanupIdleLanes. -/
def latencyWindowAvg (window now : Millis) (entries : List LatencyEntry) :
    Nat × Nat :=
  let live := entries.dropWhile (fun e => decide (e.ts + window < now))
  match live with
  | [] => (0, 0)
  | _ => ((live.map LatencyEntry.latency).sum / live.length, live.length)

/-! ## Config hub: internal/confighub (HandleConfigUpdate, Resolve) -/

/-- AgentLLMConfig mirrors confighub.AgentLLMConfig.  Temperature is float64
in Go; the embedded operations only copy it and compare it with literal 0
(exact on float64), so it is modelled as Int. -/
structure AgentLLMConfig where
  model : String := ""
  apiKey : String := ""
  apiBase : String := ""
  temperature : Int := 0
  maxTokens : Int := 0
  provider : String := ""
  deriving Repr, DecidableEq

/-- LLMConfig mirrors confighub.LLMConfig, with the AgentOverrides map as an
association list. -/
structure LLMConfig where
  model : String := ""
  apiKey : String := ""
  apiBase : String := ""
  temperature : Int := 0
  maxTokens : Int := 0
  provider : String := ""
  agentOverrides : List (String × AgentLLMConfig) := []
  deriving Repr, DecidableEq

/-- LLMConfig.resolve mirrors `LLMConfig.Resolve`: start from the parent
fields; without an override entry return them unchanged; otherwise
substitute every non-zero override field. -/
def LLMConfig.resolve (c : LLMConfig) (agentID : String) : AgentLLMConfig :=
  let base : AgentLLMConfig :=
    ⟨c.model, c.apiKey, c.apiBase, c.temperature, c.maxTokens, c.provider⟩
  match c.agentOverrides.lookup agentID with
  | none => base
  | some ov =>
    { model := if ov.model ≠ "" then ov.model else base.model
      apiKey := if ov.apiKey ≠ "" then ov.apiKey else base.apiKey
      apiBase := if ov.apiBase ≠ "" then ov.apiBase else base.apiBase
      temperature := if ov.temperature ≠ 0 then ov.temperature else base.temperature
      maxTokens := if ov.maxTokens ≠ 0 then ov.maxTokens else base.maxTokens
      provider := if ov.provider ≠ "" then ov.provider else base.provider }

/-- LLMConfigPatch models the JSON object of a config_update message: a
field is some v when the corresponding key is present in the JSON and none
when the key is absent. -/
structure LLMConfigPatch where
  model : Option String := none
  apiKey : Option String := none
  apiBase : Option String := none
  temperature : Option Int := none
  maxTokens : Option Int := none
  provider : Option String := none
  agentOverrides : Option (List (String × AgentLLMConfig)) := none
  deriving Repr, DecidableEq

/-- mergeOverrides models what encoding/json's Unmarshal does when the
"agentOverrides" key is present and the destination map already exists:
Unmarshal reuses the existing map, keeping existing entries, and stores a
freshly decoded value for each key present in the JSON.  Keys only in the
current map survive; keys in the patch take the patch's value. -/
def mergeOverrides (current patch : List (String × AgentLLMConfig)) :
    List (String × AgentLLMConfig) :=
  current.filter (fun p => (patch.lookup p.fst).isNone) ++ patch

/-- handleConfigUpdate mirrors `ConfigHub.HandleConfigUpdate`: copy the
current config, json.Unmarshal the message into the copy (absent keys leave
the copied fields, present scalar keys overwrite them, and a present
agentOverrides object merges into the copied map as in mergeOverrides), and
install the merged value via Apply. -/
def handleConfigUpdate (current : LLMConfig) (p : LLMConfigPatch) : LLMConfig :=
  { model := p.model.getD current.model
    apiKey := p.apiKey.getD current.apiKey
    apiBase := p.apiBase.getD current.apiBase
    temperature := p.temperature.getD current.temperature
    maxTokens := p.maxTokens.getD current.maxTokens
    provider := p.provider.getD current.provider
    agentOverrides :=
      match p.agentOverrides with
      | none => current.agentOverrides
      | some ovs => mergeOverrides current.agentOverrides ovs }

/-! ## Agent registry: internal/registry/registry.go -/

/-- resolveForRole mirrors `Registry.ResolveForRole` over the agents map
(modelled as an association list in registration order; values stand for the
*AgentLoop pointers): exact match, else the default id when one is set and
registered, else none.  There is no first-registered fallback here — that
loop lives only in GetDefault. -/
def resolveForRole {α : Type} (agents : List (String × α))
    (defaultID roleID : String) : Option α :=
  match agents.lookup roleID with
  | some a => some a
  | none =>
    if defaultID ≠ "" then
      match agents.lookup defaultID with
      | some a => some a
      | none => none
    else none

/-- getDefault mirrors `Registry.GetDefault`: the default id's agent when set
and registered, else the first registered agent (Go ranges over the map —
iteration order is unspecified; the list head models one admissible order),
else none. -/
def getDefault {α : Type} (agents : List (String × α)) (defaultID : String) :
    Option α :=
  match (if defaultID ≠ "" then agents.lookup defaultID else none) with
  | some a => some a
  | none => agents.head?.map Prod.snd

/-! ## Routing: the cluster routing file (routeByKeyword, checkMention,
resolveRoute) -/

/-- isInfixOfB decides whether `needle` occurs contiguously in `haystack`
(true for the empty needle). -/
def isInfixOfB (needle : List Char) : List Char → Bool
  | [] => needle.isEmpty
  | c :: t => needle.isPrefixOf (c :: t) || isInfixOfB needle t

/-- containsSub models Go's strings.Contains: the needle's character
sequence occurs contiguously in the haystack's (byte-level containment of
valid UTF-8 strings coincides with character-level containment, UTF-8 being
self-synchronizing; both give true for the empty needle). -/
def containsSub (s sub : String) : Bool :=
  isInfixOfB sub.data s.data

/-- keywordRoutes mirrors the `keywordRoutes` table in the source's textual
order (Go map iteration order is unspecified; the theorems below never
depend on tie-breaking between roles with equal scores). -/
def keywordRoutes : List (String × List String) :=
  [("legal", ["法律", "打官司", "起诉", "律师", "合同", "纠纷", "赔偿", "仲裁",
      "法院", "判决", "诉讼", "维权", "侵权", "违约"]),
   ("mechanic", ["修车", "维修", "保养", "4S店", "换胎", "发动机", "变速箱",
      "底盘", "刹车", "机油", "零件", "故障灯"]),
   ("driving", ["驾照", "违章", "扣分", "罚款", "行驶证", "年检", "审车",
      "科目", "路考", "交通规则"]),
   ("health", ["身体", "健康", "头痛", "腰痛", "失眠", "养生", "锻炼",
      "饮食", "体检", "疲劳", "颈椎"]),
   ("stockgod", ["股票", "A股", "涨停", "跌停", "基金", "持仓", "K线",
      "均线", "MACD", "量能", "板块", "龙头", "打板"]),
   ("insurance", ["保险", "理赔", "定损", "赔多少", "报销", "骗保",
      "交强险", "商业险", "三者险", "车损险", "严公估"]),
   ("food", ["吃饭", "饿了", "美食", "菜", "餐厅", "点餐", "外卖",
      "小吃", "火锅", "烧烤"]),
   ("rescue", ["拖车", "救援", "抛锚", "没电", "搭电", "轮胎", "爆胎",
      "事故", "碰撞", "翻车"])]

/-- routeByKeyword mirrors `routeByKeyword`: score each role by the number
of its keywords contained in the content and keep the strictly best role;
("", 0) when nothing matches. -/
def routeByKeyword (content : String) : String × Nat :=
  keywordRoutes.foldl
    (fun best p =>
      let s := (p.snd.filter (fun kw => containsSub content kw)).length
      if s > best.snd then (p.fst, s) else best)
    ("", 0)

/-- checkMention mirrors `checkMention`: the first mention-map entry whose
"@name" occurs in the content (source order models one admissible Go map
iteration order); "" when none. -/
def checkMention (content : String) (mentionMap : List (String × String)) :
    String :=
  match mentionMap.find? (fun p => containsSub content ("@" ++ p.fst)) with
  | some p => p.snd
  | none => ""

/-- RouteResult mirrors router.RouteResult (subTasks as an association
list). -/
structure RouteResult where
  primary : String
  related : List String := []
  reason : String := ""
  domains : List String := []
  subTasks : List (String × String) := []
  deriving Repr, DecidableEq

/-- The triple `Server.resolveRoute` returns: resolved role, method string,
and the router result when the LLM router ran. -/
structure RouteDecision where
  resolved : String
  method : String
  result : Option RouteResult
  deriving Repr, DecidableEq

/-- resolveRouteTail mirrors the code after the router block of
`Server.resolveRoute` (reached when the router is absent or both router
branches decline): keyword with the lower threshold, else the default
role. -/
def resolveRouteTail (kw : String × Nat) : RouteDecision :=
  if kw.fst ≠ "" ∧ kw.snd ≥ 1 then ⟨kw.fst, "keyword", none⟩
  else ⟨"general", "default", none⟩

/-- resolvedMention models the mention step of `Server.resolveRoute`: the
nil-map guard followed by checkMention. -/
def resolvedMention (mentionMap : Option (List (String × String)))
    (content : String) : String :=
  match mentionMap with
  | some mm => checkMention content mm
  | none => ""

/-- resolveRoute mirrors `Server.resolveRoute`.  `mentionMap` is
s.mentionMap (none models a nil map) and `routerFn` is s.router's RouteMulti
on the given content (none models a nil router).  Priority in the source:
explicit non-"general" roleID; @mention; keyword score ≥ 2; router primary
when nonempty and not "general"; router result with nonempty related (still
resolving to "general"); keyword score ≥ 1; default. -/
def resolveRoute (mentionMap : Option (List (String × String)))
    (routerFn : Option (String → RouteResult)) (content roleID : String) :
    RouteDecision :=
  if roleID ≠ "" ∧ roleID ≠ "general" then ⟨roleID, "explicit", none⟩
  else if resolvedMention mentionMap content ≠ "" then
    ⟨resolvedMention mentionMap content, "mention", none⟩
  else if (routeByKeyword content).fst ≠ "" ∧ (routeByKeyword content).snd ≥ 2 then
    ⟨(routeByKeyword content).fst, "keyword", none⟩
  else
    match routerFn with
    | some f =>
      if (f content).primary ≠ "" ∧ (f content).primary ≠ "general" then
        ⟨(f content).primary, "llm", some (f content)⟩
      else if (f content).related ≠ [] then ⟨"general", "llm", some (f content)⟩
      else resolveRouteTail (routeByKeyword content)
    | none => resolveRouteTail (routeByKeyword content)

/-- claimedRoutePriority is modelled from the words of the routing claim,
not from the source, for comparison with resolveRoute: explicit non-empty
non-"general" roleId; then a mapped @mention; then the best keyword role
with score ≥ 2; then a non-"general" LLM-router primary; then the best
keyword role with score ≥ 1; otherwise the default role "general". -/
def claimedRoutePriority (mentionMap : Option (List (String × String)))
    (routerFn : Option (String → RouteResult)) (content roleID : String) :
    RouteDecision :=
  if roleID ≠ "" ∧ roleID ≠ "general" then ⟨roleID, "explicit", none⟩
  else if resolvedMention mentionMap content ≠ "" then
    ⟨resolvedMention mentionMap content, "mention", none⟩
  else if (routeByKeyword content).fst ≠ "" ∧ (routeByKeyword content).snd ≥ 2 then
    ⟨(routeByKeyword content).fst, "keyword", none⟩
  else
    match routerFn with
    | some f =>
      if (f content).primary ≠ "" ∧ (f content).primary ≠ "general" then
        ⟨(f content).primary, "llm", some (f content)⟩
      else resolveRouteTail (routeByKeyword content)
    | none => resolveRouteTail (routeByKeyword content)

/-- mkToolMsg is the tool message that addToolResult appends for one
executed call, written as a function of the ghost log entry. -/
def mkToolMsg (e : ToolExec) : Msg :=
  { role := "tool", content := e.result,
    toolCallId := e.call.id, name := e.call.name }

/-! ## Theorems -/

/-- C1: every Collect-mode window over k = |extras| + 1 requests on one lane
invokes the handler exactly once, on the contents concatenated with a
newline separator in arrival order; the initiating request and every
collected request receive the same result, whose requestsMerged equals k
(so a lone request gets requestsMerged = 1). -/
theorem collect_merges_once (handler : ChatRequest → ChatResult)
    (item : ChatRequest) (extras : List ChatRequest) :
    (processCollect handler item extras).handlerCalls =
      [{ item with content :=
          String.intercalate "\n" (item.content :: extras.map ChatRequest.content) }]
    ∧ (processCollect handler item extras).returned =
      { handler { item with content :=
          String.intercalate "\n" (item.content :: extras.map ChatRequest.content) }
        with requestsMerged := extras.length + 1 }
    ∧ (processCollect handler item extras).deliveredToExtras.length = extras.length
    ∧ ∀ r ∈ (processCollect handler item extras).deliveredToExtras,
        r = (processCollect handler item extras).returned := by
  refine ⟨rfl, by simp [processCollect], by simp [processCollect], ?_⟩
  intro r hr
  simp only [processCollect, List.mem_map] at hr ⊢
  obtain ⟨x, -, hx⟩ := hr
  simp [← hx]

/-- Witness for collect_merges_once: the spec's own S4 seed ("A", "B", "C"
in one window yields one handler call on "A\nB\nC" with requestsMerged = 3)
plus the k = 1 boundary. -/
theorem collect_merges_once_witness :
    (processCollect (fun r => ⟨"echo: " ++ r.content, "ag", "", 0⟩)
        ⟨"A", "s1", "", "", "", ""⟩
        [⟨"B", "s1", "", "", "", ""⟩, ⟨"C", "s1", "", "", "", ""⟩]).returned
      = ⟨"echo: A\nB\nC", "ag", "", 3⟩
    ∧ (processCollect (fun r => ⟨"echo: " ++ r.content, "ag", "", 0⟩)
        ⟨"A", "s1", "", "", "", ""⟩ []).returned.requestsMerged = 1 := by
  constructor
  · have h := collect_merges_once (fun r => ⟨"echo: " ++ r.content, "ag", "", 0⟩)
      ⟨"A", "s1", "", "", "", ""⟩
      [⟨"B", "s1", "", "", "", ""⟩, ⟨"C", "s1", "", "", "", ""⟩]
    rw [h.2.1]; decide
  · have h := collect_merges_once (fun r => ⟨"echo: " ++ r.content, "ag", "", 0⟩)
      ⟨"A", "s1", "", "", "", ""⟩ []
    rw [h.2.1]
    rfl

/-- C5 counterexample: with maxLanes = 1 and one recently-active lane in the
map, requesting a lane for a fresh key evicts nothing (the only lane is not
ten minutes idle) and still inserts the new lane, leaving two lanes — more
than maxLanes. -/
theorem lane_capacity_exceeded_at_full :
    ((getOrCreateLane ⟨[("s1", ⟨ModeCollect, true, 600000⟩)], 1⟩
        600000 "s2" ModeCollect).state.lanes.length = 2)
    ∧ (1 : Nat) < 2 := by decide

/-- C5 amended: when a new lane is requested with the map at capacity,
exactly the lanes that are idle and more than ten minutes inactive are
evicted, and the new lane is then admitted unconditionally, so the map
holds the survivors plus one — which can exceed maxLanes. -/
theorem get_or_create_lane_eviction (m : ManagerState) (now : Millis)
    (key : String) (mode : LaneMode)
    (habs : m.lanes.lookup key = none) (hfull : m.lanes.length ≥ m.maxLanes) :
    (getOrCreateLane m now key mode).state.lanes
      = cleanupIdleLanes now m.lanes ++ [(key, ⟨mode, false, now⟩)]
    ∧ (∀ p, p ∈ cleanupIdleLanes now m.lanes ↔
        p ∈ m.lanes ∧ ¬(p.snd.idle = true ∧ p.snd.lastActive + tenMinutesMs < now))
    ∧ (getOrCreateLane m now key mode).state.lanes.length
      = (cleanupIdleLanes now m.lanes).length + 1 := by
  refine ⟨?_, ?_, ?_⟩
  · simp [getOrCreateLane, habs, hfull]
  · intro p
    rw [cleanupIdleLanes, List.mem_filter]
    refine and_congr_right fun _ => ?_
    cases hb : p.2.idle <;> simp [hb]
  · simp [getOrCreateLane, habs, hfull]

/-- Witness for get_or_create_lane_eviction: one ten-minutes-idle lane at
capacity 1 is evicted and replaced by the requested lane. -/
theorem get_or_create_lane_eviction_witness :
    (getOrCreateLane ⟨[("old", ⟨ModeCollect, true, 0⟩)], 1⟩
        700000 "new" ModeFollowup).state.lanes
      = [("new", ⟨ModeFollowup, false, 700000⟩)] := by
  have h := get_or_create_lane_eviction ⟨[("old", ⟨ModeCollect, true, 0⟩)], 1⟩
    700000 "new" ModeFollowup (by decide) (by decide)
  rw [h.1]; decide

/-- C6 counterexample: a lane created in Followup mode keeps processing in
Followup even when a later Submit on the same sessionKey asks for Collect —
the mode argument of the later Submit is ignored. -/
theorem submit_mode_ignored_for_existing_lane :
    submitEffectiveMode ⟨[("user1", ⟨ModeFollowup, true, 0⟩)], 1000⟩
        ModeFollowup 5 "user1" ModeCollect = ModeFollowup
    ∧ ModeFollowup ≠ ModeCollect := by decide

/-- C6 amended: the scheduling mode applied to a request is the mode stored
on its session's lane — the mode passed to the Submit that created the lane
(or the manager default when that was empty).  A Submit that lands on an
existing lane has its mode argument ignored. -/
theorem submit_mode_lane_sticky (m : ManagerState) (dm : LaneMode)
    (now : Millis) (key : String) (mode : LaneMode) :
    (m.lanes.lookup key = none →
      submitEffectiveMode m dm now key mode = (if mode = "" then dm else mode))
    ∧ (∀ l, m.lanes.lookup key = some l →
      submitEffectiveMode m dm now key mode = l.mode) := by
  constructor
  · intro h
    simp [submitEffectiveMode, getOrCreateLane, h]
  · intro l h
    simp [submitEffectiveMode, getOrCreateLane, h]

/-- Witness for submit_mode_lane_sticky: a fresh key with an empty mode gets
the manager default; an existing Followup lane overrides an Interrupt
request. -/
theorem submit_mode_lane_sticky_witness :
    submitEffectiveMode ⟨[], 1000⟩ ModeCollect 0 "s" "" = ModeCollect
    ∧ submitEffectiveMode ⟨[("s", ⟨ModeFollowup, true, 0⟩)], 1000⟩
        ModeCollect 0 "s" ModeInterrupt = ModeFollowup := by
  constructor
  · have h := (submit_mode_lane_sticky ⟨[], 1000⟩ ModeCollect 0 "s" "").1 (by decide)
    simpa using h
  · exact (submit_mode_lane_sticky ⟨[("s", ⟨ModeFollowup, true, 0⟩)], 1000⟩
      ModeCollect 0 "s" ModeInterrupt).2 ⟨ModeFollowup, true, 0⟩ (by decide)

/-- C3 counterexample: a POST whose lane handler result carries the
non-empty error string "boom" is answered with status 200 and the standard
success body — not with status 500 and that message.  (Submit only fails on
context cancellation; a result-borne error string is never consulted.) -/
theorem handle_chat_handler_error_status_200 :
    handleChat "POST" (some ⟨"hi", "s1", "", "", "", "", ""⟩)
        (fun _ _ => SubmitOutcome.ok ⟨"", "", "boom", 1⟩) 5
      = ⟨200, HttpBody.chatBody "" "" 1 5⟩
    ∧ (handleChat "POST" (some ⟨"hi", "s1", "", "", "", "", ""⟩)
        (fun _ _ => SubmitOutcome.ok ⟨"", "", "boom", 1⟩) 5).status ≠ 500 := by
  decide

/-- C3 amended: /api/chat answers 405 to a non-POST, 400 to malformed JSON
or empty content, 500 with the message only when Submit itself returns an
error (context cancellation), and otherwise 200 with
{content, agentId, requestsMerged, latencyMs} taken from the handler result
— even when that result carries a non-empty error string, which the handler
never inspects. -/
theorem handle_chat_status_characterization (method : String)
    (decoded : Option ChatBody) (submit : ChatRequest → LaneMode → SubmitOutcome)
    (latencyMs : Nat) :
    (method ≠ "POST" → handleChat method decoded submit latencyMs
      = ⟨405, HttpBody.errorBody "method not allowed"⟩)
    ∧ (method = "POST" → decoded = none → handleChat method decoded submit latencyMs
      = ⟨400, HttpBody.errorBody "invalid JSON"⟩)
    ∧ (∀ req, method = "POST" → decoded = some req → req.content = "" →
      handleChat method decoded submit latencyMs
        = ⟨400, HttpBody.errorBody "content is required"⟩)
    ∧ (∀ req e, method = "POST" → decoded = some req → req.content ≠ "" →
      submit (builtLaneRequest req) req.mode = SubmitOutcome.err e →
      handleChat method decoded submit latencyMs = ⟨500, HttpBody.errorBody e⟩)
    ∧ (∀ req r, method = "POST" → decoded = some req → req.content ≠ "" →
      submit (builtLaneRequest req) req.mode = SubmitOutcome.ok r →
      handleChat method decoded submit latencyMs
        = ⟨200, HttpBody.chatBody r.content r.agentId r.requestsMerged latencyMs⟩) := by
  refine ⟨?_, ?_, ?_, ?_, ?_⟩
  · intro h; simp [handleChat, h]
  · intro h hd; simp [handleChat, h, hd]
  · intro req h hd hc; simp [handleChat, h, hd, hc]
  · intro req e h hd hc hs; simp [handleChat, h, hd, hc, hs]
  · intro req r h hd hc hs; simp [handleChat, h, hd, hc, hs]

/-- Witness for handle_chat_status_characterization: the 405, 400 and 500
cases at concrete inputs. -/
theorem handle_chat_status_characterization_witness :
    handleChat "GET" none (fun _ _ => SubmitOutcome.err "x") 0
      = ⟨405, HttpBody.errorBody "method not allowed"⟩
    ∧ handleChat "POST" (some ⟨"", "", "", "", "", "", ""⟩)
        (fun _ _ => SubmitOutcome.err "x") 0
      = ⟨400, HttpBody.errorBody "content is required"⟩
    ∧ handleChat "POST" (some ⟨"hi", "s", "", "", "", "", ""⟩)
        (fun _ _ => SubmitOutcome.err "context canceled") 0
      = ⟨500, HttpBody.errorBody "context canceled"⟩ := by
  refine ⟨?_, ?_, ?_⟩
  · exact (handle_chat_status_characterization "GET" none
      (fun _ _ => SubmitOutcome.err "x") 0).1 (by decide)
  · exact (handle_chat_status_characterization "POST" (some ⟨"", "", "", "", "", "", ""⟩)
      (fun _ _ => SubmitOutcome.err "x") 0).2.2.1
      ⟨"", "", "", "", "", "", ""⟩ rfl rfl rfl
  · exact (handle_chat_status_characterization "POST" (some ⟨"hi", "s", "", "", "", "", ""⟩)
      (fun _ _ => SubmitOutcome.err "context canceled") 0).2.2.2.1
      ⟨"hi", "s", "", "", "", "", ""⟩ "context canceled" rfl rfl (by decide) rfl

/-- C9 counterexample: with one registered agent, no default set, and an
unregistered roleId, ResolveForRole returns nil — not the first registered
agent (that fallback exists only in GetDefault). -/
theorem resolve_for_role_no_default_none :
    resolveForRole [("a", 1)] "" "x" = (none : Option Nat)
    ∧ getDefault [("a", 1)] "" = some 1
    ∧ (none : Option Nat) ≠ some 1 := by decide

/-- C9 amended: ResolveForRole returns the agent registered under roleId
when present; otherwise, when a default id is set, whatever lookup of the
default id yields (its agent, or nil when the default id is itself
unregistered); and nil when no default id is set. -/
theorem resolve_for_role_characterization {α : Type}
    (agents : List (String × α)) (defaultID roleID : String) :
    (∀ a, agents.lookup roleID = some a →
      resolveForRole agents defaultID roleID = some a)
    ∧ (agents.lookup roleID = none → defaultID ≠ "" →
      resolveForRole agents defaultID roleID = agents.lookup defaultID)
    ∧ (agents.lookup roleID = none → defaultID = "" →
      resolveForRole agents defaultID roleID = none) := by
  refine ⟨?_, ?_, ?_⟩
  · intro a h; simp [resolveForRole, h]
  · intro h hd
    rcases hdef : agents.lookup defaultID with _ | a <;>
      simp [resolveForRole, h, hd, hdef]
  · intro h hd; simp [resolveForRole, h, hd]

/-- Witness for resolve_for_role_characterization: a registered role
resolves to its own agent; an unregistered role with an unregistered
default resolves to nothing. -/
theorem resolve_for_role_characterization_witness :
    resolveForRole [("legal", 2), ("general", 7)] "general" "legal" = some 2
    ∧ resolveForRole [("a", 1)] "general" "x" = (none : Option Nat) := by
  constructor
  · exact (resolve_for_role_characterization [("legal", 2), ("general", 7)]
      "general" "legal").1 2 (by decide)
  · have h := (resolve_for_role_characterization [("a", 1)] "general" "x").2.1
      (by decide) (by decide)
    simpa using h

/-- C10: the avgLatencyMs served by /api/load is the lifetime average
totalLatencyMs / totalRequests, not the sliding 60-second-window average
the unused latencyWindow type computes.  Trace: one request finished at
t = 0 s with latency 100 ms, one at t = 100 s with latency 0 ms; at
now = 100 s the endpoint reports 50 while the 60 s window average is 0. -/
theorem load_avg_lifetime_not_window :
    handleLoadAvg (serverTotals [⟨0, 100⟩, ⟨100000, 0⟩]).1
        (serverTotals [⟨0, 100⟩, ⟨100000, 0⟩]).2 = 50
    ∧ (latencyWindowAvg 60000 100000 [⟨0, 100⟩, ⟨100000, 0⟩]).1 = 0
    ∧ (50 : Nat) ≠ 0 := by decide

/-- Helper: List.lookup distributes over append, searching the left list
first. -/
theorem lookupAppend {β : Type} (l₁ l₂ : List (String × β)) (k : String) :
    (l₁ ++ l₂).lookup k =
      match l₁.lookup k with
      | some v => some v
      | none => l₂.lookup k := by
  induction l₁ with
  | nil => simp [List.lookup]
  | cons p t ih =>
    rcases p with ⟨a, b⟩
    cases h : k == a <;> simp [List.lookup, h, ih]

/-- Helper: filtering out the keys present in `patch` removes every entry
found under a key that `patch` contains. -/
theorem lookupFilterOfLookupSome {β : Type}
    (current patch : List (String × β)) (k : String) (v : β)
    (h : patch.lookup k = some v) :
    (current.filter (fun p => (patch.lookup p.fst).isNone)).lookup k = none := by
  induction current with
  | nil => simp [List.lookup]
  | cons p t ih =>
    rcases p with ⟨a, b⟩
    rw [List.filter_cons]
    by_cases ha : (patch.lookup a).isNone = true
    · rw [if_pos ha]
      cases hk : k == a
      · simp [List.lookup, hk, ih]
      · exfalso
        have : k = a := by simpa using hk
        rw [← this, h] at ha
        simp at ha
    · rw [if_neg ha]
      exact ih

/-- Helper: filtering on keys absent from `patch` leaves lookups of such
keys unchanged. -/
theorem lookupFilterOfLookupNone {β : Type}
    (current patch : List (String × β)) (k : String)
    (h : patch.lookup k = none) :
    (current.filter (fun p => (patch.lookup p.fst).isNone)).lookup k
      = current.lookup k := by
  induction current with
  | nil => simp
  | cons p t ih =>
    rcases p with ⟨a, b⟩
    rw [List.filter_cons]
    by_cases ha : (patch.lookup a).isNone = true
    · rw [if_pos ha]
      cases hk : k == a <;> simp [List.lookup, hk, ih]
    · rw [if_neg ha]
      cases hk : k == a
      · simp [List.lookup, hk, ih]
      · exfalso
        have : k = a := by simpa using hk
        rw [← this, h] at ha
        simp at ha

/-- Helper: the merged override map resolves each key to the patch's value
when the patch carries the key, and to the current map's value otherwise. -/
theorem mergeOverridesLookup (current patch : List (String × AgentLLMConfig))
    (k : String) :
    (mergeOverrides current patch).lookup k =
      match patch.lookup k with
      | some v => some v
      | none => current.lookup k := by
  rw [mergeOverrides, lookupAppend]
  rcases h : patch.lookup k with _ | v
  · rw [lookupFilterOfLookupNone _ _ _ h]
    cases current.lookup k <;> rfl
  · rw [lookupFilterOfLookupSome _ _ _ _ h]

/-- C7 counterexample: updating over a current config whose override map
holds agent "b" with a partial config whose agentOverrides explicitly sets
only agent "a" yields a merged map that still contains "b" — the
explicitly-set agentOverrides field of the result does not equal the value
carried by the partial update. -/
theorem config_update_override_map_merged :
    ((handleConfigUpdate
        ⟨"m0", "", "", 0, 0, "", [("b", ⟨"m-b", "", "", 0, 0, ""⟩)]⟩
        { agentOverrides := some [("a", ⟨"m-a", "", "", 0, 0, ""⟩)] }
      ).agentOverrides.lookup "b" = some ⟨"m-b", "", "", 0, 0, ""⟩)
    ∧ (([("a", (⟨"m-a", "", "", 0, 0, ""⟩ : AgentLLMConfig))]).lookup "b" = none)
    ∧ (handleConfigUpdate
        ⟨"m0", "", "", 0, 0, "", [("b", ⟨"m-b", "", "", 0, 0, ""⟩)]⟩
        { agentOverrides := some [("a", ⟨"m-a", "", "", 0, 0, ""⟩)] }
      ).agentOverrides ≠ [("a", ⟨"m-a", "", "", 0, 0, ""⟩)] := by decide

/-- C7 amended: HandleConfigUpdate leaves every omitted field at its current
value and sets every explicitly-set scalar field to the update's value; the
agentOverrides map field, when present, is merged key-by-key over the
current map (entries for agents absent from the update survive) rather than
replaced; and Resolve substitutes each non-zero override field over the
base, returning the base when no override entry exists. -/
theorem config_update_fieldwise_and_resolve (current : LLMConfig)
    (p : LLMConfigPatch) (k agentID : String) :
    (p.model = none → (handleConfigUpdate current p).model = current.model)
    ∧ (∀ v, p.model = some v → (handleConfigUpdate current p).model = v)
    ∧ (p.apiKey = none → (handleConfigUpdate current p).apiKey = current.apiKey)
    ∧ (∀ v, p.apiKey = some v → (handleConfigUpdate current p).apiKey = v)
    ∧ (p.apiBase = none → (handleConfigUpdate current p).apiBase = current.apiBase)
    ∧ (∀ v, p.apiBase = some v → (handleConfigUpdate current p).apiBase = v)
    ∧ (p.temperature = none →
        (handleConfigUpdate current p).temperature = current.temperature)
    ∧ (∀ v, p.temperature = some v → (handleConfigUpdate current p).temperature = v)
    ∧ (p.maxTokens = none →
        (handleConfigUpdate current p).maxTokens = current.maxTokens)
    ∧ (∀ v, p.maxTokens = some v → (handleConfigUpdate current p).maxTokens = v)
    ∧ (p.provider = none →
        (handleConfigUpdate current p).provider = current.provider)
    ∧ (∀ v, p.provider = some v → (handleConfigUpdate current p).provider = v)
    ∧ (p.agentOverrides = none →
        (handleConfigUpdate current p).agentOverrides = current.agentOverrides)
    ∧ (∀ ovs, p.agentOverrides = some ovs →
        (handleConfigUpdate current p).agentOverrides.lookup k =
          match ovs.lookup k with
          | some v => some v
          | none => current.agentOverrides.lookup k)
    ∧ (current.agentOverrides.lookup agentID = none →
        current.resolve agentID =
          ⟨current.model, current.apiKey, current.apiBase, current.temperature,
           current.maxTokens, current.provider⟩)
    ∧ (∀ ov, current.agentOverrides.lookup agentID = some ov →
        current.resolve agentID =
          ⟨if ov.model ≠ "" then ov.model else current.model,
           if ov.apiKey ≠ "" then ov.apiKey else current.apiKey,
           if ov.apiBase ≠ "" then ov.apiBase else current.apiBase,
           if ov.temperature ≠ 0 then ov.temperature else current.temperature,
           if ov.maxTokens ≠ 0 then ov.maxTokens else current.maxTokens,
           if ov.provider ≠ "" then ov.provider else current.provider⟩) := by
  refine ⟨?_, ?_, ?_, ?_, ?_, ?_, ?_, ?_, ?_, ?_, ?_, ?_, ?_, ?_, ?_, ?_⟩ <;>
    first
    | (intro h; simp [handleConfigUpdate, LLMConfig.resolve, h])
    | (intro v h; simp [handleConfigUpdate, LLMConfig.resolve, h, mergeOverridesLookup])

/-- Witness for config_update_fieldwise_and_resolve: a concrete update sets
model, keeps provider, and a concrete override substitutes only its
non-zero temperature over the base. -/
theorem config_update_fieldwise_and_resolve_witness :
    (handleConfigUpdate
        ⟨"base", "key", "url", 1, 100, "openai", [("a", ⟨"", "", "", 2, 0, ""⟩)]⟩
        { model := some "new" }).model = "new"
    ∧ (handleConfigUpdate
        ⟨"base", "key", "url", 1, 100, "openai", [("a", ⟨"", "", "", 2, 0, ""⟩)]⟩
        { model := some "new" }).provider = "openai"
    ∧ (⟨"base", "key", "url", 1, 100, "openai", [("a", ⟨"", "", "", 2, 0, ""⟩)]⟩
        : LLMConfig).resolve "a" = ⟨"base", "key", "url", 2, 100, "openai"⟩ := by
  obtain ⟨h1, h2, h3, h4, h5, h6, h7, h8, h9, h10, h11, h12, h13, h14, h15, h16⟩ :=
    config_update_fieldwise_and_resolve
      ⟨"base", "key", "url", 1, 100, "openai", [("a", ⟨"", "", "", 2, 0, ""⟩)]⟩
      { model := some "new" } "b" "a"
  refine ⟨h2 "new" rfl, h11 rfl, ?_⟩
  rw [h16 ⟨"", "", "", 2, 0, ""⟩ (by decide)]
  decide

/-- C8 counterexample: with no mention map, a router that answers primary
"general" with related ["legal"], and content "吃饭" (keyword score exactly 1
for role "food"), resolveRoute returns ("general", "llm") through the
related-nonempty branch, while the claimed priority — which falls through to
the weak-keyword step — returns ("food", "keyword"). -/
theorem resolve_route_related_preempts_weak_keyword :
    resolveRoute none (some fun _ => ⟨"general", ["legal"], "", [], []⟩) "吃饭" ""
      = ⟨"general", "llm", some ⟨"general", ["legal"], "", [], []⟩⟩
    ∧ claimedRoutePriority none
        (some fun _ => ⟨"general", ["legal"], "", [], []⟩) "吃饭" ""
      = ⟨"food", "keyword", none⟩
    ∧ ("general" : String) ≠ "food" := by decide

/-- C8 amended: route resolution applies, first hit wins: explicit non-empty
non-"general" roleId; @mention; keyword score ≥ 2; non-"general" non-empty
LLM-router primary; router result with non-empty related (resolved
"general", method "llm"); keyword score ≥ 1; default "general". -/
theorem resolve_route_priority_amended
    (mm : Option (List (String × String)))
    (rf : Option (String → RouteResult)) (content roleID : String) :
    (roleID ≠ "" ∧ roleID ≠ "general" →
      resolveRoute mm rf content roleID = ⟨roleID, "explicit", none⟩)
    ∧ (¬(roleID ≠ "" ∧ roleID ≠ "general") →
        resolvedMention mm content ≠ "" →
      resolveRoute mm rf content roleID
        = ⟨resolvedMention mm content, "mention", none⟩)
    ∧ (¬(roleID ≠ "" ∧ roleID ≠ "general") →
        resolvedMention mm content = "" →
        (routeByKeyword content).fst ≠ "" → 2 ≤ (routeByKeyword content).snd →
      resolveRoute mm rf content roleID
        = ⟨(routeByKeyword content).fst, "keyword", none⟩)
    ∧ (∀ f, ¬(roleID ≠ "" ∧ roleID ≠ "general") →
        resolvedMention mm content = "" →
        ¬((routeByKeyword content).fst ≠ "" ∧ 2 ≤ (routeByKeyword content).snd) →
        rf = some f → (f content).primary ≠ "" → (f content).primary ≠ "general" →
      resolveRoute mm rf content roleID
        = ⟨(f content).primary, "llm", some (f content)⟩)
    ∧ (∀ f, ¬(roleID ≠ "" ∧ roleID ≠ "general") →
        resolvedMention mm content = "" →
        ¬((routeByKeyword content).fst ≠ "" ∧ 2 ≤ (routeByKeyword content).snd) →
        rf = some f →
        ¬((f content).primary ≠ "" ∧ (f content).primary ≠ "general") →
        (f content).related ≠ [] →
      resolveRoute mm rf content roleID = ⟨"general", "llm", some (f content)⟩)
    ∧ (∀ f, ¬(roleID ≠ "" ∧ roleID ≠ "general") →
        resolvedMention mm content = "" →
        ¬((routeByKeyword content).fst ≠ "" ∧ 2 ≤ (routeByKeyword content).snd) →
        rf = some f →
        ¬((f content).primary ≠ "" ∧ (f content).primary ≠ "general") →
        (f content).related = [] →
      resolveRoute mm rf content roleID = resolveRouteTail (routeByKeyword content))
    ∧ (¬(roleID ≠ "" ∧ roleID ≠ "general") →
        resolvedMention mm content = "" →
        ¬((routeByKeyword content).fst ≠ "" ∧ 2 ≤ (routeByKeyword content).snd) →
        rf = none →
      resolveRoute mm rf content roleID = resolveRouteTail (routeByKeyword content))
    ∧ ((routeByKeyword content).fst ≠ "" → 1 ≤ (routeByKeyword content).snd →
      resolveRouteTail (routeByKeyword content)
        = ⟨(routeByKeyword content).fst, "keyword", none⟩)
    ∧ (¬((routeByKeyword content).fst ≠ "" ∧ 1 ≤ (routeByKeyword content).snd) →
      resolveRouteTail (routeByKeyword content) = ⟨"general", "default", none⟩) := by
  refine ⟨?_, ?_, ?_, ?_, ?_, ?_, ?_, ?_, ?_⟩
  · intro h1
    simp only [resolveRoute]
    rw [if_pos h1]
  · intro h1 h2
    simp only [resolveRoute]
    rw [if_neg h1, if_pos h2]
  · intro h1 h2 h3 h4
    simp only [resolveRoute]
    rw [if_neg h1, if_neg (by simp [h2]), if_pos ⟨h3, h4⟩]
  · intro f h1 h2 h3 hf h4 h5
    subst hf
    simp only [resolveRoute]
    rw [if_neg h1, if_neg (by simp [h2]), if_neg h3]
    rw [if_pos ⟨h4, h5⟩]
  · intro f h1 h2 h3 hf h4 h5
    subst hf
    simp only [resolveRoute]
    rw [if_neg h1, if_neg (by simp [h2]), if_neg h3]
    rw [if_neg h4, if_pos h5]
  · intro f h1 h2 h3 hf h4 h5
    subst hf
    simp only [resolveRoute]
    rw [if_neg h1, if_neg (by simp [h2]), if_neg h3]
    rw [if_neg h4, if_neg (by simp [h5])]
  · intro h1 h2 h3 hf
    subst hf
    simp only [resolveRoute]
    rw [if_neg h1, if_neg (by simp [h2]), if_neg h3]
  · intro h1 h2
    simp only [resolveRouteTail]
    rw [if_pos ⟨h1, h2⟩]
  · intro h1
    simp only [resolveRouteTail]
    rw [if_neg h1]

/-- Witness for resolve_route_priority_amended: a strong keyword hit
("合同纠纷" scores 2 for "legal") resolves by keyword, and the
related-nonempty router branch resolves to "general" by llm. -/
theorem resolve_route_priority_amended_witness :
    resolveRoute none none "我们需要就合同纠纷起诉对方" ""
      = ⟨"legal", "keyword", none⟩
    ∧ resolveRoute none (some fun _ => ⟨"general", ["legal"], "", [], []⟩)
        "你好" "" = ⟨"general", "llm", some ⟨"general", ["legal"], "", [], []⟩⟩ := by
  constructor
  · have h := (resolve_route_priority_amended none none
      "我们需要就合同纠纷起诉对方" "").2.2.1 (by decide) (by decide)
      (by decide) (by decide)
    rw [h]
    decide
  · exact (resolve_route_priority_amended none
      (some fun _ => ⟨"general", ["legal"], "", [], []⟩) "你好" "").2.2.2.2.1
      (fun _ => ⟨"general", ["legal"], "", [], []⟩) (by decide) (by decide)
      (by decide) rfl (by decide) (by decide)

/-- Helper: execToolCalls appends, in call order, one name to toolsUsed, one
log entry holding execToolCall's output, and one tool message per call. -/
theorem execToolCallsSpec (tools : ToolRegistry) :
    ∀ (tcs : List ToolCallRequest) (messages : List Msg) (used : List String)
      (log : List ToolExec),
      execToolCalls tools tcs messages used log =
        (messages ++ tcs.map (fun tc => mkToolMsg ⟨tc, execToolCall tools tc⟩),
         used ++ tcs.map ToolCallRequest.name,
         log ++ tcs.map (fun tc => ⟨tc, execToolCall tools tc⟩)) := by
  intro tcs
  induction tcs with
  | nil => intro m u l; simp [execToolCalls]
  | cons tc rest ih =>
    intro m u l
    simp [execToolCalls, ih, addToolResult, mkToolMsg]

/-- Helper: the loop makes at most `calls + fuel` provider calls. -/
theorem runAgentLoopAuxCallsLe (chat : ChatFn) (tools : ToolRegistry) :
    ∀ (fuel : Nat) (messages : List Msg) (used : List String) (calls : Nat)
      (log : List ToolExec),
      (runAgentLoopAux chat tools fuel messages used calls log).providerCalls
        ≤ calls + fuel := by
  intro fuel
  induction fuel with
  | zero => intro m u c l; exact Nat.le_add_right c 0
  | succ n ih =>
    intro m u c l
    simp only [runAgentLoopAux]
    rcases h : chat (toProviderMsgs m) with e | resp
    · dsimp only; omega
    · dsimp only
      by_cases hb : resp.hasToolCalls = true
      · rw [if_pos hb]
        exact (ih _ _ _ _).trans (by omega)
      · rw [if_neg hb]
        dsimp only; omega

/-- Helper: toolsUsed tracks the log names, every log entry records
execToolCall's output, and every log entry's tool message is present in the
final message list. -/
theorem runAgentLoopAuxInvariants (chat : ChatFn) (tools : ToolRegistry) :
    ∀ (fuel : Nat) (messages : List Msg) (used : List String) (calls : Nat)
      (log : List ToolExec),
      used = log.map (fun e => e.call.name) →
      (∀ e ∈ log, e.result = execToolCall tools e.call) →
      (∀ e ∈ log, mkToolMsg e ∈ messages) →
      ((runAgentLoopAux chat tools fuel messages used calls log).toolsUsed
          = (runAgentLoopAux chat tools fuel messages used calls log).toolLog.map
              (fun e => e.call.name))
      ∧ (∀ e ∈ (runAgentLoopAux chat tools fuel messages used calls log).toolLog,
          e.result = execToolCall tools e.call)
      ∧ (∀ e ∈ (runAgentLoopAux chat tools fuel messages used calls log).toolLog,
          mkToolMsg e ∈ (runAgentLoopAux chat tools fuel messages used calls log).messages) := by
  intro fuel
  induction fuel with
  | zero =>
    intro m u c l hu hres hmsg
    exact ⟨hu, hres, hmsg⟩
  | succ n ih =>
    intro m u c l hu hres hmsg
    simp only [runAgentLoopAux]
    rcases h : chat (toProviderMsgs m) with e | resp
    · exact ⟨hu, hres, hmsg⟩
    · dsimp only
      by_cases hb : resp.hasToolCalls = true
      · rw [if_pos hb]
        rw [execToolCallsSpec]
        refine ih _ _ _ _ ?_ ?_ ?_
        · simp [hu, Function.comp]
        · intro e he
          rcases List.mem_append.mp he with h1 | h1
          · exact hres e h1
          · obtain ⟨tc, -, rfl⟩ := List.mem_map.mp h1
            rfl
        · intro e he
          rcases List.mem_append.mp he with h1 | h1
          · apply List.mem_append_left
            rw [addAssistantMessage]
            exact List.mem_append_left _ (hmsg e h1)
          · obtain ⟨tc, htc, rfl⟩ := List.mem_map.mp h1
            exact List.mem_append_right _ (List.mem_map.mpr ⟨tc, htc, rfl⟩)
      · rw [if_neg hb]
        exact ⟨hu, hres, hmsg⟩

/-- Helper: when the provider always answers with tool calls, the loop ends
by iteration cap with the sentinel content and no error. -/
theorem runAgentLoopAuxSentinel (chat : ChatFn) (tools : ToolRegistry)
    (H : ∀ ms, ∃ r, chat ms = Except.ok r ∧ r.toolCalls ≠ []) :
    ∀ (fuel : Nat) (messages : List Msg) (used : List String) (calls : Nat)
      (log : List ToolExec),
      (runAgentLoopAux chat tools fuel messages used calls log).content
        = "Max iterations reached"
      ∧ (runAgentLoopAux chat tools fuel messages used calls log).error = none := by
  intro fuel
  induction fuel with
  | zero => intro m u c l; exact ⟨rfl, rfl⟩
  | succ n ih =>
    intro m u c l
    obtain ⟨r, hr, hne⟩ := H (toProviderMsgs m)
    have hb : r.hasToolCalls = true := by
      simp [LLMResponse.hasToolCalls, List.length_pos, hne]
    simp only [runAgentLoopAux]
    rw [hr]
    dsimp only
    rw [if_pos hb]
    exact ih _ _ _ _

/-- C2: RunAgentLoop makes at most MaxIterations provider calls; when every
provider response carries tool calls the loop returns the sentinel
"Max iterations reached" with no error; toolsUsed lists the names of the
executed tool calls in invocation order (the chronological ghost log); and
every executed call appends exactly its execToolCall output as a tool
message, which for an unknown tool or a failing execution begins with
"Error: ". -/
theorem run_agent_loop_bounded_and_error_tagged (chat : ChatFn)
    (tools : ToolRegistry) (maxIterations : Nat) (messages : List Msg) :
    (runAgentLoop chat tools maxIterations messages).providerCalls ≤ maxIterations
    ∧ ((∀ ms, ∃ r, chat ms = Except.ok r ∧ r.toolCalls ≠ []) →
        (runAgentLoop chat tools maxIterations messages).content
          = "Max iterations reached"
        ∧ (runAgentLoop chat tools maxIterations messages).error = none)
    ∧ (runAgentLoop chat tools maxIterations messages).toolsUsed
        = (runAgentLoop chat tools maxIterations messages).toolLog.map
            (fun e => e.call.name)
    ∧ ∀ e ∈ (runAgentLoop chat tools maxIterations messages).toolLog,
        mkToolMsg e ∈ (runAgentLoop chat tools maxIterations messages).messages
        ∧ e.result = execToolCall tools e.call
        ∧ (tools e.call.name = none → ∃ rest, e.result = "Error: " ++ rest)
        ∧ (∀ f msg, tools e.call.name = some f →
            f e.call.arguments = Except.error msg →
            ∃ rest, e.result = "Error: " ++ rest) := by
  have hcalls := runAgentLoopAuxCallsLe chat tools maxIterations messages [] 0 []
  have hinv := runAgentLoopAuxInvariants chat tools maxIterations messages [] 0 []
    rfl (by simp) (by simp)
  refine ⟨by simpa [runAgentLoop] using hcalls,
    fun H => runAgentLoopAuxSentinel chat tools H maxIterations messages [] 0 [],
    hinv.1, ?_⟩
  intro e he
  refine ⟨hinv.2.2 e he, hinv.2.1 e he, ?_, ?_⟩
  · intro hn
    refine ⟨"unknown tool \"" ++ (e.call.name ++ "\""), ?_⟩
    rw [hinv.2.1 e he]
    simp only [execToolCall, hn]
    rw [← String.append_assoc, ← String.append_assoc]
    rfl
  · intro f msg hf herr
    refine ⟨msg, ?_⟩
    rw [hinv.2.1 e he]
    simp only [execToolCall, hf, herr]

/-- Witness for run_agent_loop_bounded_and_error_tagged: a provider that
always calls the registered tool "noop" with MaxIterations = 3 ends with
the sentinel and at most three provider calls. -/
theorem run_agent_loop_bounded_and_error_tagged_witness :
    (runAgentLoop (fun _ => Except.ok ⟨none, [⟨"c1", "noop", "a1"⟩], none⟩)
      (fun n => if n = "noop" then some (fun _ => Except.ok "ok") else none) 3
      [⟨"user", "Hi", [], "", "", ""⟩]).content = "Max iterations reached"
    ∧ (runAgentLoop (fun _ => Except.ok ⟨none, [⟨"c1", "noop", "a1"⟩], none⟩)
      (fun n => if n = "noop" then some (fun _ => Except.ok "ok") else none) 3
      [⟨"user", "Hi", [], "", "", ""⟩]).providerCalls ≤ 3 := by
  have h := run_agent_loop_bounded_and_error_tagged
    (fun _ => Except.ok ⟨none, [⟨"c1", "noop", "a1"⟩], none⟩)
    (fun n => if n = "noop" then some (fun _ => Except.ok "ok") else none) 3
    [⟨"user", "Hi", [], "", "", ""⟩]
  exact ⟨(h.2.1 (fun ms => ⟨⟨none, [⟨"c1", "noop", "a1"⟩], none⟩, rfl, by simp⟩)).1,
    h.1⟩
